import Mathlib

/-!
Verification development for `fetch_current_season.py`: a script that fetches
NBA standings and advanced team stats, merges them by team id, and writes a
fixed-column CSV.  The pure transformation core of the script (per-row
reshaping in the two fetchers, the merge in `build_rows`, serialization in
`write_csv`, and the control flow of `main`) is embedded below; network I/O is
abstracted as the already-parsed data-frame rows (for the fetchers) and as
`Except`-valued fetch results (for `main`).
-/

namespace NbaFetch

/-- Round-half-to-even on a rational, as Python's builtin `round` behaves on
exact values: ties (fractional part exactly 1/2) go to the even integer. -/
def roundHalfEven (q : ℚ) : ℤ :=
  let f := q.floor
  let r := q - (f : ℚ)
  if r < 1/2 then f
  else if (1/2 : ℚ) < r then f + 1
  else if f % 2 = 0 then f else f + 1

/-- Python's `round(q, nd)`: scale by `10^nd`, round half-to-even, scale back. -/
def pyRound (q : ℚ) (nd : Nat) : ℚ :=
  (roundHalfEven (q * (10 : ℚ) ^ nd) : ℚ) / (10 : ℚ) ^ nd

/-- The `SEASON` constant of the script. -/
def SEASON : String := "2025-26"

/-- The `OUTPUT_FILE` constant of the script (default CSV path). -/
def OUTPUT_FILE : String := "current_season.csv"

/-- The `CSV_COLUMNS` constant: the fixed, ordered list of output columns. -/
def CSV_COLUMNS : List String :=
  ["TEAM_ID", "TEAM_NAME", "W_PCT",
   "OFF_RATING", "DEF_RATING", "NET_RATING",
   "AST_PCT", "REB_PCT", "TS_PCT", "PACE",
   "Season"]

/-- Value stored in the standings dict for one team: `{TEAM_NAME, W_PCT}`. -/
structure StandRec where
  TEAM_NAME : String
  W_PCT : ℚ
deriving DecidableEq

/-- Value stored in the advanced-stats dict for one team. -/
structure AdvRec where
  OFF_RATING : ℚ
  DEF_RATING : ℚ
  NET_RATING : ℚ
  AST_PCT : ℚ
  REB_PCT : ℚ
  TS_PCT : ℚ
  PACE : ℚ
deriving DecidableEq

/-- One parsed data-frame row of the standings endpoint (columns the script
reads after upper-casing: TEAMID, TEAMNAME, WINS, LOSSES). -/
structure RawStandingRow where
  TEAMID : Int
  TEAMNAME : String
  WINS : Nat
  LOSSES : Nat

/-- One parsed data-frame row of the advanced-stats endpoint. -/
structure RawAdvRow where
  TEAM_ID : Int
  OFF_RATING : ℚ
  DEF_RATING : ℚ
  NET_RATING : ℚ
  AST_PCT : ℚ
  REB_PCT : ℚ
  TS_PCT : ℚ
  PACE : ℚ

/-- The `w_pct` expression of `fetch_standings`:
`round(wins / (wins + losses), 3) if (wins + losses) > 0 else 0.0`. -/
def standingsWPct (wins losses : Nat) : ℚ :=
  if wins + losses > 0
  then pyRound ((wins : ℚ) / ((wins : ℚ) + (losses : ℚ))) 3
  else 0

/-- Row loop of `fetch_standings`: builds the dict keyed by `str(int(TEAMID))`
(modelled as an association list in data-frame order). -/
def fetch_standings (df : List RawStandingRow) : List (String × StandRec) :=
  df.map fun row =>
    (toString row.TEAMID, ⟨row.TEAMNAME, standingsWPct row.WINS row.LOSSES⟩)

/-- Row loop of `fetch_advanced_stats`: each metric rounded to its precision
(1 decimal for ratings, 3 for percentages, 2 for pace). -/
def fetch_advanced_stats (df : List RawAdvRow) : List (String × AdvRec) :=
  df.map fun row =>
    (toString row.TEAM_ID,
     ⟨pyRound row.OFF_RATING 1, pyRound row.DEF_RATING 1,
      pyRound row.NET_RATING 1, pyRound row.AST_PCT 3,
      pyRound row.REB_PCT 3, pyRound row.TS_PCT 3,
      pyRound row.PACE 2⟩)

/-- A CSV-ready merged row as built by `build_rows`. -/
structure Row where
  TEAM_ID : String
  TEAM_NAME : String
  W_PCT : ℚ
  OFF_RATING : ℚ
  DEF_RATING : ℚ
  NET_RATING : ℚ
  AST_PCT : ℚ
  REB_PCT : ℚ
  TS_PCT : ℚ
  PACE : ℚ
  Season : String
deriving DecidableEq

/-- The dict literal appended by `build_rows` for a surviving team. -/
def mkRow (tid : String) (s : StandRec) (adv : AdvRec) : Row :=
  ⟨tid, s.TEAM_NAME, s.W_PCT,
   adv.OFF_RATING, adv.DEF_RATING, adv.NET_RATING,
   adv.AST_PCT, adv.REB_PCT, adv.TS_PCT, adv.PACE, SEASON⟩

/-- Sort key of `rows.sort(key=lambda r: r["TEAM_NAME"])`. -/
def rowLE (r1 r2 : Row) : Prop := r1.TEAM_NAME ≤ r2.TEAM_NAME

instance : DecidableRel rowLE := fun a b =>
  inferInstanceAs (Decidable (a.TEAM_NAME ≤ b.TEAM_NAME))

instance : IsTotal Row rowLE := ⟨fun a b => le_total a.TEAM_NAME b.TEAM_NAME⟩

instance : IsTrans Row rowLE := ⟨fun _ _ _ h1 h2 => le_trans h1 h2⟩

/-- The accumulation loop of `build_rows`: for each standings entry in order,
skip it (`continue`, after the warning print) when its team id is absent from
the advanced dict, otherwise append the merged row. -/
def mergeRows : List (String × StandRec) → List (String × AdvRec) → List Row
  | [], _ => []
  | p :: s, advanced =>
    match List.lookup p.1 advanced with
    | none => mergeRows s advanced
    | some adv => mkRow p.1 p.2 adv :: mergeRows s advanced

/-- Definition of `build_rows`: the merge loop followed by
`rows.sort(key=lambda r: r["TEAM_NAME"])` (a stable ascending sort, like
Python's `list.sort`). -/
def build_rows (standings : List (String × StandRec))
    (advanced : List (String × AdvRec)) : List Row :=
  List.insertionSort rowLE (mergeRows standings advanced)

/-- Decimal rendering of a nonnegative value given as `value * 1000 = t`,
with at most three fractional decimal digits, matching Python's `str()` on
the floats this script writes (every serialized number is `round`ed to 1, 2
or 3 decimals, and Python's shortest-repr float formatting prints such values
as their decimal literal, always keeping at least one fractional digit,
e.g. `110.0`). -/
def renderScaled (t : Nat) : String :=
  let ip := t / 1000
  let f := t % 1000
  let ds := [f / 100, f / 10 % 10, f % 10]
  let trimmed := (ds.reverse.dropWhile fun d => d = 0).reverse
  let frac := if trimmed.isEmpty then [0] else trimmed
  toString ip ++ "." ++ String.join (frac.map toString)

/-- Decimal rendering of a nonnegative rational via its value scaled by
1000. -/
def renderNonneg (q : ℚ) : String :=
  renderScaled (q * 1000).num.toNat

/-- Python `str()` of a float value, sign included. -/
def renderRat (q : ℚ) : String :=
  if q < 0 then "-" ++ renderNonneg (-q) else renderNonneg q

/-- Minimal quoting of one CSV field, as `csv.writer` with QUOTE_MINIMAL:
quote the field and double inner quotes when it contains the delimiter, the
quote char or a line break. -/
def csvField (s : String) : String :=
  if s.data.any (fun c => c = ',' || c = '"' || c = '\n' || c = '\r') then
    "\"" ++ String.join (s.data.map fun c =>
      if c = '"' then "\"\"" else String.singleton c) ++ "\""
  else s

/-- One serialized CSV line: fields joined by the `,` delimiter. -/
def csvLine (cells : List String) : String :=
  String.intercalate "," (cells.map csvField)

/-- The cell values `csv.DictWriter` extracts from one merged row, in
`CSV_COLUMNS` order. -/
def rowCells (r : Row) : List String :=
  [r.TEAM_ID, r.TEAM_NAME, renderRat r.W_PCT,
   renderRat r.OFF_RATING, renderRat r.DEF_RATING, renderRat r.NET_RATING,
   renderRat r.AST_PCT, renderRat r.REB_PCT, renderRat r.TS_PCT,
   renderRat r.PACE, r.Season]

/-- Model of `write_csv` as the list of lines written to the file: `writeheader()`
then `writerows(rows)` in the given order. -/
def write_csv (rows : List Row) : List String :=
  csvLine CSV_COLUMNS :: rows.map fun r => csvLine (rowCells r)

/-- Observable outcome of one run of `main`: process exit code, the file
written (path and lines) if any, and the diagnostic error line if any. -/
structure MainOutcome where
  exitCode : Nat
  written : Option (String × List String)
  errMsg : Option String
deriving DecidableEq

/-- Control flow of `main`, with the two network fetches abstracted as
`Except`-valued results (`.error e` models the fetch raising an exception
whose text is `e`).  A fetch failure prints the diagnostic including the
error text and exits 1; zero merged rows prints a diagnostic and exits 1;
otherwise the CSV is written to the output path and the process exits 0. -/
def runMain (outputPath : String)
    (fs : Except String (List (String × StandRec)))
    (fa : Except String (List (String × AdvRec))) : MainOutcome :=
  match fs with
  | .error e => ⟨1, none, some ("ERROR: NBA API call failed — " ++ e)⟩
  | .ok standings =>
    match fa with
    | .error e => ⟨1, none, some ("ERROR: NBA API call failed — " ++ e)⟩
    | .ok advanced =>
      let rows := build_rows standings advanced
      if rows.isEmpty then
        ⟨1, none, some "ERROR: No rows produced — check API responses above"⟩
      else
        ⟨0, some (outputPath, write_csv rows), none⟩

/-! ### Helper lemmas -/

lemma lookup_isSome_iff_mem {β : Type} {l : List (String × β)} {t : String} :
    (List.lookup t l).isSome ↔ t ∈ l.map Prod.fst := by
  simp only [List.lookup_isSome_iff, beq_iff_eq, List.mem_map]
  constructor
  · rintro ⟨p, hp, rfl⟩; exact ⟨p, hp, rfl⟩
  · rintro ⟨p, hp, rfl⟩; exact ⟨p, hp, rfl⟩

lemma mergeRows_length (s : List (String × StandRec))
    (a : List (String × AdvRec)) :
    (mergeRows s a).length
      = ((s.map Prod.fst).filter fun t => t ∈ a.map Prod.fst).length := by
  induction s with
  | nil => rfl
  | cons p s ih =>
    rw [mergeRows, List.map_cons, List.filter_cons]
    cases h : List.lookup p.1 a with
    | none =>
      have hm : ¬ p.1 ∈ a.map Prod.fst := by
        rw [← lookup_isSome_iff_mem, h]; simp
      simp [hm, ih]
    | some adv =>
      have hm : p.1 ∈ a.map Prod.fst := by
        rw [← lookup_isSome_iff_mem, h]; rfl
      simp [hm, ih]

lemma mergeRows_mem {s : List (String × StandRec)}
    {a : List (String × AdvRec)} {r : Row} (hr : r ∈ mergeRows s a) :
    ∃ srec adv, (r.TEAM_ID, srec) ∈ s
      ∧ List.lookup r.TEAM_ID a = some adv
      ∧ r = mkRow r.TEAM_ID srec adv := by
  induction s with
  | nil => simp [mergeRows] at hr
  | cons p s ih =>
    rw [mergeRows] at hr
    cases h : List.lookup p.1 a with
    | none =>
      rw [h] at hr
      obtain ⟨srec, adv, h1, h2, h3⟩ := ih hr
      exact ⟨srec, adv, List.mem_cons_of_mem p h1, h2, h3⟩
    | some adv =>
      rw [h] at hr
      rcases List.mem_cons.mp hr with he | hm
      · subst he
        exact ⟨p.2, adv, List.mem_cons_self _ _, h, rfl⟩
      · obtain ⟨srec, adv', h1, h2, h3⟩ := ih hm
        exact ⟨srec, adv', List.mem_cons_of_mem p h1, h2, h3⟩

lemma mergeRows_ids_sublist (s : List (String × StandRec))
    (a : List (String × AdvRec)) :
    ((mergeRows s a).map Row.TEAM_ID).Sublist (s.map Prod.fst) := by
  induction s with
  | nil => simp [mergeRows]
  | cons p s ih =>
    rw [mergeRows, List.map_cons]
    cases List.lookup p.1 a with
    | none => exact ih.trans (List.sublist_cons_self _ _)
    | some adv => exact List.Sublist.cons₂ _ ih

lemma build_rows_perm (s : List (String × StandRec))
    (a : List (String × AdvRec)) :
    List.Perm (build_rows s a) (mergeRows s a) :=
  List.perm_insertionSort rowLE (mergeRows s a)

lemma renderRat_eq_scaled (q : ℚ) (t : Nat) (h : q * 1000 = (t : ℚ)) :
    renderRat q = renderScaled t := by
  have hq : 0 ≤ q := by
    by_contra hneg
    push_neg at hneg
    have h1 : q * 1000 < 0 := by nlinarith
    rw [h] at h1
    exact absurd h1 (not_lt.mpr (Nat.cast_nonneg t))
  rw [renderRat, if_neg (not_lt.mpr hq), renderNonneg, h]
  norm_num

/-- Concrete example inputs: two standings entries, only team `"1"` present
in the advanced dict. -/
def exStandings : List (String × StandRec) :=
  [("1", ⟨"Alpha", 3/5⟩), ("2", ⟨"Beta", 0⟩)]

/-- Concrete example advanced dict with only team `"1"`. -/
def exAdvanced : List (String × AdvRec) :=
  [("1", ⟨110, 105, 5, 1/5, 1/2, 11/20, 98⟩)]

/-- The single merged row the example inputs produce. -/
def exRow : Row := mkRow "1" ⟨"Alpha", 3/5⟩ ⟨110, 105, 5, 1/5, 1/2, 11/20, 98⟩

lemma build_rows_ex : build_rows exStandings exAdvanced = [exRow] := rfl

/-! ### Claims -/

/-- C1: for wins `w` and losses `l` with `w + l > 0` the standings fetcher
computes `win_pct = round(w / (w + l), 3)` (Python banker's rounding to three
decimals), and when `w + l = 0` it computes `win_pct = 0.0`; the division by
zero is guarded by the conditional, never taken. -/
theorem standings_win_pct_correct (w l : Nat) :
    (0 < w + l →
      standingsWPct w l = pyRound ((w : ℚ) / ((w : ℚ) + (l : ℚ))) 3)
    ∧ (w + l = 0 → standingsWPct w l = 0) := by
  refine ⟨fun h => ?_, fun h => ?_⟩
  · rw [standingsWPct, if_pos h]
  · rw [standingsWPct, if_neg (by omega)]

/-- Witness for C1 at `w = 3, l = 2` and at `w = 0, l = 0`. -/
theorem standings_win_pct_correct_witness :
    (0 < 3 + 2 ∧
      standingsWPct 3 2
        = pyRound (((3 : ℕ) : ℚ) / (((3 : ℕ) : ℚ) + ((2 : ℕ) : ℚ))) 3)
    ∧ (0 + 0 = 0 ∧ standingsWPct 0 0 = 0) :=
  ⟨⟨by decide, (standings_win_pct_correct 3 2).1 (by decide)⟩,
   ⟨rfl, (standings_win_pct_correct 0 0).2 rfl⟩⟩

/-- C2: the number of rows returned by `build_rows` equals the number of
team ids of the standings dict that are also keys of the advanced dict, and
is therefore at most `min |standings| |advanced|` (the standings keys are
distinct, being dict keys). -/
theorem build_rows_count (s : List (String × StandRec))
    (a : List (String × AdvRec)) (hs : (s.map Prod.fst).Nodup) :
    (build_rows s a).length
        = ((s.map Prod.fst).filter fun t => t ∈ a.map Prod.fst).length
    ∧ (build_rows s a).length ≤ min s.length a.length := by
  have hlen : (build_rows s a).length = (mergeRows s a).length :=
    (build_rows_perm s a).length_eq
  refine ⟨by rw [hlen, mergeRows_length], ?_⟩
  rw [hlen, mergeRows_length]
  refine le_min ?_ ?_
  · calc ((s.map Prod.fst).filter fun t => t ∈ a.map Prod.fst).length
        ≤ (s.map Prod.fst).length := List.length_filter_le _ _
      _ = s.length := List.length_map _ _
  · have hnd : ((s.map Prod.fst).filter fun t => t ∈ a.map Prod.fst).Nodup :=
      hs.filter _
    have hsub : ((s.map Prod.fst).filter fun t => t ∈ a.map Prod.fst)
        ⊆ a.map Prod.fst := by
      intro x hx
      simpa using (List.mem_filter.mp hx).2
    calc ((s.map Prod.fst).filter fun t => t ∈ a.map Prod.fst).length
        ≤ (a.map Prod.fst).length := (hnd.subperm hsub).length_le
      _ = a.length := List.length_map _ _

/-- Witness for C2 on the example inputs (two standings entries, one shared
team id). -/
theorem build_rows_count_witness :
    (exStandings.map Prod.fst).Nodup
    ∧ ((build_rows exStandings exAdvanced).length
          = ((exStandings.map Prod.fst).filter
              fun t => t ∈ exAdvanced.map Prod.fst).length
        ∧ (build_rows exStandings exAdvanced).length
            ≤ min exStandings.length exAdvanced.length) :=
  ⟨by decide, build_rows_count exStandings exAdvanced (by decide)⟩

/-- C3: every row emitted by `build_rows` has a team id that is a key of the
advanced dict, and a standings entry whose team id is absent from the
advanced dict is never emitted (it is skipped, not an error — `build_rows`
is total). -/
theorem build_rows_only_matched (s : List (String × StandRec))
    (a : List (String × AdvRec)) :
    (∀ r ∈ build_rows s a, (List.lookup r.TEAM_ID a).isSome)
    ∧ ∀ p ∈ s, p.1 ∉ a.map Prod.fst →
        ∀ r ∈ build_rows s a, r.TEAM_ID ≠ p.1 := by
  have hmem : ∀ r ∈ build_rows s a, (List.lookup r.TEAM_ID a).isSome := by
    intro r hr
    obtain ⟨srec, adv, _, h2, _⟩ :=
      mergeRows_mem (((build_rows_perm s a).mem_iff).mp hr)
    rw [h2]; rfl
  refine ⟨hmem, fun p _ hp r hr he => hp ?_⟩
  rw [← he, ← lookup_isSome_iff_mem]
  exact hmem r hr

/-- Witness for C3: the example row's team id has an advanced entry, and no
emitted row carries the unmatched id `"2"`. -/
theorem build_rows_only_matched_witness :
    (exRow ∈ build_rows exStandings exAdvanced
      ∧ (List.lookup exRow.TEAM_ID exAdvanced).isSome)
    ∧ (("2", (⟨"Beta", 0⟩ : StandRec)) ∈ exStandings
      ∧ ("2", (⟨"Beta", 0⟩ : StandRec)).1 ∉ exAdvanced.map Prod.fst
      ∧ exRow.TEAM_ID ≠ ("2", (⟨"Beta", 0⟩ : StandRec)).1) := by
  have hmem : exRow ∈ build_rows exStandings exAdvanced := by
    rw [build_rows_ex]; exact List.mem_singleton.mpr rfl
  have h2 : ("2", (⟨"Beta", 0⟩ : StandRec)) ∈ exStandings := by
    rw [exStandings]
    exact List.mem_cons_of_mem _ (List.mem_singleton.mpr rfl)
  have hno : ("2" : String) ∉ exAdvanced.map Prod.fst := by decide
  exact ⟨⟨hmem, (build_rows_only_matched exStandings exAdvanced).1 exRow hmem⟩,
    h2, hno,
    (build_rows_only_matched exStandings exAdvanced).2 _ h2 hno exRow hmem⟩

/-- C4: the row list returned by `build_rows` is sorted by `TEAM_NAME` in
ascending order under the default string ordering. -/
theorem build_rows_sorted_by_name (s : List (String × StandRec))
    (a : List (String × AdvRec)) :
    List.Pairwise (fun r1 r2 : Row => r1.TEAM_NAME ≤ r2.TEAM_NAME)
      (build_rows s a) :=
  List.sorted_insertionSort rowLE (mergeRows s a)

/-- C5: for every row list (the empty one included) the CSV writer emits
first the header line of the fixed, ordered 11-column list, then one data
line per merged row in the given order. -/
theorem write_csv_header_and_rows (rows : List Row) :
    write_csv rows
      = "TEAM_ID,TEAM_NAME,W_PCT,OFF_RATING,DEF_RATING,NET_RATING,AST_PCT,REB_PCT,TS_PCT,PACE,Season"
          :: rows.map (fun r => csvLine (rowCells r))
    ∧ CSV_COLUMNS.length = 11 := by
  refine ⟨?_, rfl⟩
  rw [write_csv]
  congr 1

/-- C6: when the merge of the two fetched dicts produces zero rows, `main`
reports a diagnostic and exits with code 1 without writing any file. -/
theorem main_exits_on_zero_rows (path : String)
    (s : List (String × StandRec)) (a : List (String × AdvRec))
    (h : build_rows s a = []) :
    (runMain path (.ok s) (.ok a)).exitCode = 1
    ∧ (runMain path (.ok s) (.ok a)).written = none
    ∧ (runMain path (.ok s) (.ok a)).errMsg.isSome := by
  simp [runMain, h]

/-- Witness for C6: empty fetch results merge to zero rows and the run exits
1 with no file written. -/
theorem main_exits_on_zero_rows_witness :
    build_rows [] [] = ([] : List Row)
    ∧ (runMain OUTPUT_FILE (.ok []) (.ok [])).exitCode = 1
    ∧ (runMain OUTPUT_FILE (.ok []) (.ok [])).written = none
    ∧ (runMain OUTPUT_FILE (.ok []) (.ok [])).errMsg.isSome :=
  ⟨rfl, main_exits_on_zero_rows OUTPUT_FILE [] [] rfl⟩

/-- C7: when either fetch raises, `main` exits with code 1, writes no file,
and its diagnostic message contains the underlying error text (the model is
straight-line, so no retry can occur). -/
theorem main_exits_on_fetch_error (path e : String)
    (s : List (String × StandRec))
    (fa : Except String (List (String × AdvRec))) :
    ((runMain path (.error e) fa).exitCode = 1
      ∧ (runMain path (.error e) fa).written = none
      ∧ ∃ pre, (runMain path (.error e) fa).errMsg = some (pre ++ e))
    ∧ ((runMain path (.ok s) (.error e)).exitCode = 1
      ∧ (runMain path (.ok s) (.error e)).written = none
      ∧ ∃ pre, (runMain path (.ok s) (.error e)).errMsg = some (pre ++ e)) :=
  ⟨⟨rfl, rfl, "ERROR: NBA API call failed — ", rfl⟩,
   ⟨rfl, rfl, "ERROR: NBA API call failed — ", rfl⟩⟩

/-- C8: on the concrete inputs of the end-to-end example, `build_rows`
followed by `write_csv` produces the header and exactly the one expected
data line. -/
theorem end_to_end_example :
    write_csv (build_rows [("1", (⟨"Alpha", 3/5⟩ : StandRec))]
        [("1", (⟨110, 105, 5, 1/5, 1/2, 11/20, 98⟩ : AdvRec))])
      = ["TEAM_ID,TEAM_NAME,W_PCT,OFF_RATING,DEF_RATING,NET_RATING,AST_PCT,REB_PCT,TS_PCT,PACE,Season",
         "1,Alpha,0.6,110.0,105.0,5.0,0.2,0.5,0.55,98.0,2025-26"] := by
  have hb : build_rows [("1", (⟨"Alpha", 3/5⟩ : StandRec))]
        [("1", (⟨110, 105, 5, 1/5, 1/2, 11/20, 98⟩ : AdvRec))]
      = [mkRow "1" ⟨"Alpha", 3/5⟩ ⟨110, 105, 5, 1/5, 1/2, 11/20, 98⟩] := rfl
  rw [hb, write_csv]
  have h1 : renderRat ((3 : ℚ)/5) = renderScaled 600 :=
    renderRat_eq_scaled _ 600 (by norm_num)
  have h2 : renderRat (110 : ℚ) = renderScaled 110000 :=
    renderRat_eq_scaled _ 110000 (by norm_num)
  have h3 : renderRat (105 : ℚ) = renderScaled 105000 :=
    renderRat_eq_scaled _ 105000 (by norm_num)
  have h4 : renderRat (5 : ℚ) = renderScaled 5000 :=
    renderRat_eq_scaled _ 5000 (by norm_num)
  have h5 : renderRat ((1 : ℚ)/5) = renderScaled 200 :=
    renderRat_eq_scaled _ 200 (by norm_num)
  have h6 : renderRat ((1 : ℚ)/2) = renderScaled 500 :=
    renderRat_eq_scaled _ 500 (by norm_num)
  have h7 : renderRat ((11 : ℚ)/20) = renderScaled 550 :=
    renderRat_eq_scaled _ 550 (by norm_num)
  have h8 : renderRat (98 : ℚ) = renderScaled 98000 :=
    renderRat_eq_scaled _ 98000 (by norm_num)
  simp only [List.map_cons, List.map_nil, rowCells, mkRow, h1, h2, h3, h4,
    h5, h6, h7, h8]
  rfl

/-- C9: the `TEAM_ID` values of the rows returned by `build_rows` are
pairwise distinct, the standings dict keys being distinct. -/
theorem build_rows_team_ids_distinct (s : List (String × StandRec))
    (a : List (String × AdvRec)) (hs : (s.map Prod.fst).Nodup) :
    ((build_rows s a).map Row.TEAM_ID).Nodup := by
  have hperm : List.Perm ((build_rows s a).map Row.TEAM_ID)
      ((mergeRows s a).map Row.TEAM_ID) := (build_rows_perm s a).map _
  exact hperm.symm.nodup ((hs.sublist (mergeRows_ids_sublist s a)))

/-- Witness for C9 on the example inputs. -/
theorem build_rows_team_ids_distinct_witness :
    (exStandings.map Prod.fst).Nodup
    ∧ ((build_rows exStandings exAdvanced).map Row.TEAM_ID).Nodup :=
  ⟨by decide, build_rows_team_ids_distinct exStandings exAdvanced (by decide)⟩

/-- C10: every emitted row copies `TEAM_NAME` and `W_PCT` from its standings
entry and the seven advanced metrics from its advanced entry unchanged, and
stamps `Season` with the constant `SEASON = "2025-26"`. -/
theorem build_rows_fields_unchanged (s : List (String × StandRec))
    (a : List (String × AdvRec)) (r : Row) (hr : r ∈ build_rows s a) :
    ∃ srec adv, (r.TEAM_ID, srec) ∈ s
      ∧ List.lookup r.TEAM_ID a = some adv
      ∧ r.TEAM_NAME = srec.TEAM_NAME ∧ r.W_PCT = srec.W_PCT
      ∧ r.OFF_RATING = adv.OFF_RATING ∧ r.DEF_RATING = adv.DEF_RATING
      ∧ r.NET_RATING = adv.NET_RATING ∧ r.AST_PCT = adv.AST_PCT
      ∧ r.REB_PCT = adv.REB_PCT ∧ r.TS_PCT = adv.TS_PCT
      ∧ r.PACE = adv.PACE ∧ r.Season = SEASON := by
  obtain ⟨srec, adv, h1, h2, h3⟩ :=
    mergeRows_mem (((build_rows_perm s a).mem_iff).mp hr)
  refine ⟨srec, adv, h1, h2, ?_, ?_, ?_, ?_, ?_, ?_, ?_, ?_, ?_, ?_⟩ <;>
    (rw [h3]; rfl)

/-- Witness for C10: the example row's fields all come from its two source
entries, and its season is `"2025-26"`. -/
theorem build_rows_fields_unchanged_witness :
    exRow ∈ build_rows exStandings exAdvanced
    ∧ ∃ srec adv, (exRow.TEAM_ID, srec) ∈ exStandings
      ∧ List.lookup exRow.TEAM_ID exAdvanced = some adv
      ∧ exRow.TEAM_NAME = srec.TEAM_NAME ∧ exRow.W_PCT = srec.W_PCT
      ∧ exRow.OFF_RATING = adv.OFF_RATING
      ∧ exRow.DEF_RATING = adv.DEF_RATING
      ∧ exRow.NET_RATING = adv.NET_RATING ∧ exRow.AST_PCT = adv.AST_PCT
      ∧ exRow.REB_PCT = adv.REB_PCT ∧ exRow.TS_PCT = adv.TS_PCT
      ∧ exRow.PACE = adv.PACE ∧ exRow.Season = SEASON := by
  have hmem : exRow ∈ build_rows exStandings exAdvanced := by
    rw [build_rows_ex]; exact List.mem_singleton.mpr rfl
  exact ⟨hmem,
    build_rows_fields_unchanged exStandings exAdvanced exRow hmem⟩

end NbaFetch
